import Mathlib

/-!
Shallow embedding of the Split-Bill USSD backend core
(`src/services/ussdService.ts`, `src/utils/validation.ts`), together with
theorems checking the natural-language specification against it.

JavaScript numbers are modelled by `JSNum`: `NaN`, the two infinities, and
finite values as exact rationals.  `parseFloat` is modelled on the string
grammar of `StrDecimalLiteral` (sign, digits, decimal point, exponent,
the literal `Infinity`, trailing garbage ignored); finite results are kept
as exact rationals rather than rounded to binary doubles, and a finite
decimal literal never overflows to infinity in the model.  No claim below
depends on double rounding; the literal `"Infinity"` input, which both JS
and the model map to positive infinity, is what the claims exercise.

The module-level `sessionStore : Map<string, USSDState>` becomes an
explicit `Store` value threaded through the handlers; `billService.createBill`
(a database transaction, external to the engine) becomes an oracle
parameter `BillEnv`; a thrown JS exception becomes `Except.error`, and the
engine's `try/catch` becomes a `match` on the `Except`.
-/

namespace SplitBill

/-- Model of a JavaScript number: `NaN`, `Infinity`, `-Infinity`, or a
finite value represented as an exact rational. -/
inductive JSNum where
  | nan : JSNum
  | inf : JSNum
  | neginf : JSNum
  | fin : ℚ → JSNum
deriving DecidableEq, Repr

/-- Model of JS `isNaN(x)` (the argument is already a number here). -/
def JSNum.isNaN : JSNum → Bool
  | .nan => true
  | _ => false

/-- Model of the JS comparison `x <= 0` (false for `NaN`). -/
def JSNum.leZero : JSNum → Bool
  | .nan => false
  | .inf => false
  | .neginf => true
  | .fin q => q ≤ 0

/-- Model of the JS comparison `x > 0` (false for `NaN`). -/
def JSNum.gtZero : JSNum → Bool
  | .nan => false
  | .inf => true
  | .neginf => false
  | .fin q => 0 < q

/-- Model of JS division on numbers (sign of zero is not tracked: the
finite/zero case collapses `-0` to `0`, and the engine only divides by a
positive member count). -/
def JSNum.div : JSNum → JSNum → JSNum
  | .nan, _ => .nan
  | _, .nan => .nan
  | .inf, .inf => .nan
  | .inf, .neginf => .nan
  | .neginf, .inf => .nan
  | .neginf, .neginf => .nan
  | .inf, .fin q => if 0 ≤ q then .inf else .neginf
  | .neginf, .fin q => if 0 ≤ q then .neginf else .inf
  | .fin _, .inf => .fin 0
  | .fin _, .neginf => .fin 0
  | .fin a, .fin b =>
      if b = 0 then (if a = 0 then .nan else if 0 < a then .inf else .neginf)
      else .fin (Rat.divInt (a.num * b.den) (a.den * b.num))

/-- Numeric value of a run of ASCII digits, most significant first. -/
def digitsVal (ds : List Char) : ℕ :=
  ds.foldl (fun a c => 10 * a + (c.toNat - '0'.toNat)) 0

/-- Split a character list into its leading digit run and the rest. -/
def takeDigits (cs : List Char) : List Char × List Char :=
  (cs.takeWhile Char.isDigit, cs.dropWhile Char.isDigit)

/-- Exponent denoted by a `[eE][+-]?digits` prefix of the input; `0` when
no well-formed exponent part starts here (JS `parseFloat` uses the longest
valid prefix, so `"1e"` and `"1e+"` contribute no exponent). -/
def parseExpPart (cs : List Char) : ℤ :=
  match cs with
  | 'e' :: rest => parseSignedDigits rest
  | 'E' :: rest => parseSignedDigits rest
  | _ => 0
where
  parseSignedDigits : List Char → ℤ
  | '+' :: rest => parsePlainDigits rest
  | '-' :: rest => - parsePlainDigits rest
  | rest => parsePlainDigits rest
  parsePlainDigits (rest : List Char) : ℤ :=
    let ds := rest.takeWhile Char.isDigit
    if ds.isEmpty then 0 else (digitsVal ds : ℤ)

/-- The exact rational `mant * 10 ^ (e - fracLen)`: value of a decimal
literal with integer-and-fraction digits `mant`, `fracLen` digits after
the point, and exponent `e`.  Built with `mkRat` over integer
arithmetic. -/
def decValue (mant : ℕ) (fracLen : ℕ) (e : ℤ) : ℚ :=
  if 0 ≤ e then mkRat (mant * 10 ^ e.toNat) (10 ^ fracLen)
  else mkRat mant (10 ^ (fracLen + (-e).toNat))

/-- Unsigned decimal literal at the head of the input:
`digits [. digits] [exponent]` or `. digits [exponent]`; `none` when no
digit occurs before the exponent position. -/
def parseUnsignedDec (cs : List Char) : Option ℚ :=
  let (ip, rest) := takeDigits cs
  match rest with
  | '.' :: rest2 =>
      let (fp, rest3) := takeDigits rest2
      if ip.isEmpty ∧ fp.isEmpty then none
      else
        some (decValue (digitsVal ip * 10 ^ fp.length + digitsVal fp) fp.length
          (parseExpPart rest3))
  | _ =>
      if ip.isEmpty then none
      else some (decValue (digitsVal ip) 0 (parseExpPart rest))

/-- Model of JS `parseFloat`: skip leading whitespace, optional sign, then
either the literal `Infinity` or a decimal literal; `NaN` when no numeric
prefix exists.  Trailing characters are ignored. -/
def parseFloat (s : String) : JSNum :=
  let cs := s.data.dropWhile Char.isWhitespace
  let (neg, body) : Bool × List Char :=
    match cs with
    | '-' :: rest => (true, rest)
    | '+' :: rest => (false, rest)
    | rest => (false, rest)
  if "Infinity".data.isPrefixOf body then
    if neg then .neginf else .inf
  else
    match parseUnsignedDec body with
    | none => .nan
    | some q => .fin (if neg then -q else q)

/-! ### JS string methods, modelled structurally -/

/-- Model of JS `String.prototype.trim()`: strip leading and trailing
whitespace. -/
def jsTrim (s : String) : String :=
  ⟨((s.data.dropWhile Char.isWhitespace).reverse.dropWhile Char.isWhitespace).reverse⟩

/-- Splitting worker: cut the character list at every separator. -/
def jsSplitAux (sep : Char) : List Char → List Char → List (List Char)
  | [], acc => [acc.reverse]
  | c :: rest, acc =>
      if c = sep then acc.reverse :: jsSplitAux sep rest []
      else jsSplitAux sep rest (c :: acc)

/-- Model of JS `String.prototype.split(sep)` for a one-character
separator: `""` splits to `[""]`, separators at the ends produce empty
fragments, exactly as in JS. -/
def jsSplit (sep : Char) (s : String) : List String :=
  (jsSplitAux sep s.data []).map fun l => ⟨l⟩

/-- Model of JS `String.prototype.startsWith(pre)`. -/
def jsStartsWith (s pre : String) : Bool :=
  pre.data.isPrefixOf s.data

/-! ### Phone number utilities (`src/utils/validation.ts`) -/

/-- `phone.replace(/[\s\-\(\)]/g, '')`: drop whitespace, hyphens and
parentheses. -/
def cleanPhoneStr (phone : String) : String :=
  ⟨phone.data.filter fun c => !(c.isWhitespace || c = '-' || c = '(' || c = ')')⟩

/-- The core of the regex `[67]\d{8}`, anchored at both ends: one leading
`6` or `7` followed by exactly eight ASCII digits. -/
def tzCore : List Char → Bool
  | c :: rest => (c = '6' || c = '7') && rest.length = 8 && rest.all Char.isDigit
  | [] => false

/-- The anchored regex `^(\+255|0)?[67]\d{8}$` as a decidable test: the
optional group matches `+255`, `0`, or nothing. -/
def tzRegexTest (cs : List Char) : Bool :=
  (decide (cs.take 4 = ['+', '2', '5', '5']) && tzCore (cs.drop 4)) ||
  (decide (cs.take 1 = ['0']) && tzCore (cs.drop 1)) ||
  tzCore cs

/-- `validatePhoneNumber` from `src/utils/validation.ts`: clean, then test
against `^(\+255|0)?[67]\d{8}$`. -/
def validatePhoneNumber (phone : String) : Bool :=
  tzRegexTest (cleanPhoneStr phone).data

/-- `formatPhoneNumber` from `src/utils/validation.ts`: normalize a
cleaned number to international `+255...` form; unrecognized inputs are
returned cleaned but otherwise unchanged. -/
def formatPhoneNumber (phone : String) : String :=
  let cleanPhone := cleanPhoneStr phone
  if jsStartsWith cleanPhone "0" then "+255" ++ cleanPhone.drop 1
  else if jsStartsWith cleanPhone "+255" then cleanPhone
  else if jsStartsWith cleanPhone "255" then "+" ++ cleanPhone
  else if tzCore cleanPhone.data then "+255" ++ cleanPhone
  else cleanPhone

/-- `USSDService.isValidPhoneNumber` from `src/services/ussdService.ts`:
the same regex `^(\+255|0)?[67]\d{8}$`, applied to the raw string with no
cleaning pass. -/
def isValidPhoneNumber (phone : String) : Bool :=
  tzRegexTest phone.data

/-! ### Engine data model (`src/services/ussdService.ts`) -/

/-- The `'CON' | 'END'` status union of a USSD response. -/
inductive Status where
  | CON : Status
  | END : Status
deriving DecidableEq, Repr

/-- `USSDRequest` interface. -/
structure USSDRequest where
  sessionId : String
  serviceCode : String
  phoneNumber : String
  text : String
deriving DecidableEq, Repr

/-- `USSDResponse` interface. -/
structure USSDResponse where
  sessionId : String
  serviceCode : String
  message : String
  status : Status
deriving DecidableEq, Repr

/-- The `'amount' | 'members' | 'confirm'` step union of a session. -/
inductive Step where
  | amount : Step
  | members : Step
  | confirm : Step
deriving DecidableEq, Repr

/-- `USSDState` interface; TypeScript optional fields become `Option`. -/
structure USSDState where
  step : Step
  amount : Option JSNum
  memberPhones : List String
  creatorName : Option String
  phoneNumber : Option String
deriving DecidableEq, Repr

/-- The module-level `sessionStore : Map<string, USSDState>`, modelled as
a partial map threaded through the handlers. -/
def Store : Type := String → Option USSDState

/-- `sessionStore.get(k)`. -/
def Store.get (s : Store) (k : String) : Option USSDState := s k

/-- `sessionStore.set(k, v)`. -/
def Store.set (s : Store) (k : String) (v : USSDState) : Store :=
  fun k2 => if k2 = k then some v else s k2

/-- `sessionStore.delete(k)` (idempotent, as for a JS `Map`). -/
def Store.delete (s : Store) (k : String) : Store :=
  fun k2 => if k2 = k then none else s k2

/-- The store at process start: no sessions. -/
def Store.empty : Store := fun _ => none

/-- `CreateBillRequest` as built by the confirmation handler
(`description` is never supplied by the engine and is omitted). -/
structure CreateBillRequest where
  creatorPhone : String
  creatorName : String
  amount : JSNum
  memberPhones : List String
deriving DecidableEq, Repr

/-- The fields of `billService.createBill`'s result that the engine
reads: `bill.id`, `bill.amount`, `bill.members.length`. -/
structure Bill where
  id : ℕ
  amount : JSNum
  members : List String
deriving DecidableEq, Repr

/-- The Bill Store collaborator: `billService.createBill` is a database
transaction outside the engine, modelled as an oracle that either returns
a bill or throws. -/
def BillEnv : Type := CreateBillRequest → Except String Bill

/-! ### Message formatting helpers -/

/-- Model of `Number.prototype.toFixed(2)`: nearest multiple of `1/100`,
ties toward the larger candidate (ECMA's "pick the larger n"); rendering
of negative zero is not tracked.  The rounded numerator
`Int.fdiv (q.num * 200 + q.den) (2 * q.den)` is the floor of
`q * 100 + 1/2`, written with integer arithmetic.  Only finite values
reach this in the engine's messages; the non-finite cases mirror JS
output. -/
def JSNum.toFixed2 : JSNum → String
  | .nan => "NaN"
  | .inf => "Infinity"
  | .neginf => "-Infinity"
  | .fin q =>
      let n : ℤ := Int.fdiv (q.num * 200 + q.den) (2 * q.den)
      let ip : ℕ := n.natAbs / 100
      let fp : ℕ := n.natAbs % 100
      (if n < 0 then "-" else "") ++ toString ip ++ "." ++
        (if fp < 10 then "0" else "") ++ toString fp

/-- String interpolation of a number, as `` `${bill.amount}` ``.  JS
prints the shortest decimal form of the double; the model prints the
exact rational (identical on integers, which is all the claims use). -/
def JSNum.jsToString : JSNum → String
  | .nan => "NaN"
  | .inf => "Infinity"
  | .neginf => "-Infinity"
  | .fin q => if q.den = 1 then toString q.num else toString q

/-- The JS idiom `x || d` on an optional string: `d` when the field is
`undefined` or the empty string (the only falsy strings). -/
def jsOrString (o : Option String) (d : String) : String :=
  match o with
  | some s => if s = "" then d else s
  | none => d

/-! ### The Dialogue Engine (`USSDService`) -/

/-- `createResponse`: the `serviceCode` field of every response is the
hard-coded literal `'*123#'`. -/
def createResponse (sessionId : String) (message : String) (status : Status) :
    USSDResponse :=
  { sessionId := sessionId, serviceCode := "*123#", message := message,
    status := status }

/-- `extractNameFromPhone`: placeholder implementation. -/
def extractNameFromPhone (_phone : String) : String := "User"

/-- `handleAmountStep`.  The guard `!text || text.trim() === ''` is
equivalent to `text.trim() === ''` since the only falsy string is empty.
A thrown exception would be `Except.error`; this handler never throws. -/
def handleAmountStep (store : Store) (req : USSDRequest) (state : USSDState) :
    Except String (Store × USSDResponse) :=
  let sessionId := req.sessionId
  if jsTrim req.text = "" then
    let state1 := { state with
      creatorName := some (extractNameFromPhone req.phoneNumber),
      phoneNumber := some req.phoneNumber }
    .ok (store.set sessionId state1,
      createResponse sessionId
        ("Welcome " ++ jsOrString state1.creatorName "User" ++
          "!\n\nEnter the total bill amount:") .CON)
  else
    let amount := parseFloat (jsTrim req.text)
    if amount.isNaN || amount.leZero then
      .ok (store,
        createResponse sessionId
          "Invalid amount. Please enter a valid number greater than 0:" .CON)
    else
      let state1 := { state with amount := some amount, step := .members }
      .ok (store.set sessionId state1,
        createResponse sessionId
          ("Bill amount: " ++ amount.toFixed2 ++
            " TZS\n\nEnter phone numbers separated by commas (e.g., 0712345678,0756789012):")
          .CON)

/-- `handleMembersStep`.  `text.split(',').map(trim).filter(isValid)`;
note the handler filters with `isValidPhoneNumber` and stores the trimmed
entries themselves — `formatPhoneNumber` is never called here. -/
def handleMembersStep (store : Store) (req : USSDRequest) (state : USSDState) :
    Except String (Store × USSDResponse) :=
  let sessionId := req.sessionId
  if jsTrim req.text = "" then
    .ok (store,
      createResponse sessionId "Please enter phone numbers separated by commas:" .CON)
  else
    let phoneNumbers := ((jsSplit ',' req.text).map jsTrim).filter isValidPhoneNumber
    if phoneNumbers = [] then
      .ok (store,
        createResponse sessionId
          "No valid phone numbers found. Please enter valid phone numbers separated by commas:"
          .CON)
    else
      let state1 := { state with memberPhones := phoneNumbers, step := .confirm }
      -- `state.amount!`: the TS non-null assertion is a static cast; at
      -- runtime an `undefined` would flow through, modelled by the `NaN`
      -- sentinel (never reached on stores satisfying the invariant).
      let totalAmount := state.amount.getD .nan
      let amountPerPerson := totalAmount.div (.fin phoneNumbers.length)
      let confirmationMessage :=
        "📋 Bill Summary:\n" ++
        "Total Amount: " ++ totalAmount.toFixed2 ++ " TZS\n" ++
        "Members: " ++ toString phoneNumbers.length ++ "\n" ++
        "Amount per person: " ++ amountPerPerson.toFixed2 ++ " TZS\n\n" ++
        "Phone Numbers:\n" ++ String.intercalate "\n" phoneNumbers ++ "\n\n" ++
        "Reply:\n" ++
        "1 - Confirm and Create Bill\n" ++
        "2 - Cancel"
      .ok (store.set sessionId state1, createResponse sessionId confirmationMessage .CON)

/-- The `CreateBillRequest` literal built inside `handleConfirmStep`;
`state.phoneNumber!` is modelled by an empty-string sentinel for the
unreachable `undefined` case. -/
def mkBillRequest (state : USSDState) : CreateBillRequest :=
  { creatorPhone := state.phoneNumber.getD "",
    creatorName := jsOrString state.creatorName "User",
    amount := state.amount.getD .nan,
    memberPhones := state.memberPhones }

/-- The success message of `handleConfirmStep`. -/
def billSuccessMessage (bill : Bill) : String :=
  "✅ Bill created successfully!\n\n" ++
  "Bill ID: " ++ toString bill.id ++ "\n" ++
  "Amount: " ++ bill.amount.jsToString ++ " TZS\n" ++
  "Members: " ++ toString bill.members.length ++ "\n\n" ++
  "SMS notifications have been sent to all members."

/-- `handleConfirmStep`.  The inner `try/catch` around
`billService.createBill` becomes a `match` on the oracle's `Except`: on
failure the handler returns the generic failure `END` response, and — as
in the source — does NOT delete the session. -/
def handleConfirmStep (env : BillEnv) (store : Store) (req : USSDRequest)
    (state : USSDState) : Except String (Store × USSDResponse) :=
  let sessionId := req.sessionId
  if req.text = "1" then
    match env (mkBillRequest state) with
    | .ok bill =>
        .ok (store.delete sessionId,
          createResponse sessionId (billSuccessMessage bill) .END)
    | .error _ =>
        .ok (store,
          createResponse sessionId
            "❌ Failed to create bill. Please try again later." .END)
  else if req.text = "2" then
    .ok (store.delete sessionId,
      createResponse sessionId
        "❌ Bill creation cancelled. Thank you for using Split-Bill!" .END)
  else
    .ok (store,
      createResponse sessionId
        "Invalid option. Please reply with:\n1 - Confirm and Create Bill\n2 - Cancel"
        .CON)

/-- The fresh state built by `sessionStore.get(sessionId) || {...}` when
the id is unseen. -/
def initialState (req : USSDRequest) : USSDState :=
  { step := .amount, amount := none, memberPhones := [],
    creatorName := none, phoneNumber := some req.phoneNumber }

/-- The state the engine works on: the stored one, or a fresh one. -/
def readState (store : Store) (req : USSDRequest) : USSDState :=
  (store.get req.sessionId).getD (initialState req)

/-- The `switch (state.step)` dispatch inside the `try` block.  The
`default:` arm of the source is unreachable: the TS union type has
exactly these three cases, as does `Step`. -/
def dispatchStep (env : BillEnv) (store : Store) (req : USSDRequest)
    (state : USSDState) : Except String (Store × USSDResponse) :=
  match state.step with
  | .amount => handleAmountStep store req state
  | .members => handleMembersStep store req state
  | .confirm => handleConfirmStep env store req state

/-- The outer `catch (error)` of `processUSSDRequest`: any exception
escaping a step handler becomes the generic `END` response, with the
store left as it was. -/
def catchGeneric (sessionId : String) (store : Store)
    (r : Except String (Store × USSDResponse)) : Store × USSDResponse :=
  match r with
  | .ok out => out
  | .error _ =>
      (store, createResponse sessionId "An error occurred. Please try again." .END)

/-- `USSDService.processUSSDRequest`: read or create the session, run the
step handler for its `step`, and catch any exception. -/
def processUSSDRequest (env : BillEnv) (store : Store) (req : USSDRequest) :
    Store × USSDResponse :=
  catchGeneric req.sessionId store (dispatchStep env store req (readState store req))

/-- Run a sequence of requests against the engine, threading the store. -/
def runRequests (env : BillEnv) (reqs : List USSDRequest) (store : Store) : Store :=
  reqs.foldl (fun s r => (processUSSDRequest env s r).1) store

/-- Position of a step in the forward order
`amount → members → confirm`. -/
def stepIdx : Step → ℕ
  | .amount => 0
  | .members => 1
  | .confirm => 2

/-! ### Shared concrete test fixtures -/

/-- A Bill Store oracle that always succeeds, echoing the request. -/
def envSucc : BillEnv :=
  fun r => .ok { id := 7, amount := r.amount, members := r.memberPhones }

/-- A Bill Store oracle whose `createBill` always throws. -/
def envFail : BillEnv := fun _ => .error "createBill failure"

/-- A session parked at the confirmation step. -/
def confirmState : USSDState :=
  { step := .confirm, amount := some (.fin 10000),
    memberPhones := ["0712345678"], creatorName := some "User",
    phoneNumber := some "+255700000001" }

/-! ### Handler shape lemmas -/

/-- `handleAmountStep` never throws, and every branch answers through
`createResponse` for the request's session id. -/
theorem handleAmountStep_ok (store : Store) (req : USSDRequest) (st : USSDState) :
    ∃ out, handleAmountStep store req st = Except.ok out ∧
      out.2.serviceCode = "*123#" ∧ out.2.sessionId = req.sessionId := by
  unfold handleAmountStep
  split
  · exact ⟨_, rfl, rfl, rfl⟩
  · dsimp only
    split
    · exact ⟨_, rfl, rfl, rfl⟩
    · exact ⟨_, rfl, rfl, rfl⟩

/-- `handleMembersStep` never throws, and every branch answers through
`createResponse` for the request's session id. -/
theorem handleMembersStep_ok (store : Store) (req : USSDRequest) (st : USSDState) :
    ∃ out, handleMembersStep store req st = Except.ok out ∧
      out.2.serviceCode = "*123#" ∧ out.2.sessionId = req.sessionId := by
  unfold handleMembersStep
  split
  · exact ⟨_, rfl, rfl, rfl⟩
  · dsimp only
    split
    · exact ⟨_, rfl, rfl, rfl⟩
    · exact ⟨_, rfl, rfl, rfl⟩

/-- `handleConfirmStep` never lets the oracle's exception escape, and
every branch answers through `createResponse` for the request's session
id. -/
theorem handleConfirmStep_ok (env : BillEnv) (store : Store) (req : USSDRequest)
    (st : USSDState) :
    ∃ out, handleConfirmStep env store req st = Except.ok out ∧
      out.2.serviceCode = "*123#" ∧ out.2.sessionId = req.sessionId := by
  unfold handleConfirmStep
  split
  · split <;> exact ⟨_, rfl, rfl, rfl⟩
  · split
    · exact ⟨_, rfl, rfl, rfl⟩
    · exact ⟨_, rfl, rfl, rfl⟩

/-- The dispatcher never produces an exception, whatever the state. -/
theorem dispatchStep_ok (env : BillEnv) (store : Store) (req : USSDRequest)
    (st : USSDState) :
    ∃ out, dispatchStep env store req st = Except.ok out ∧
      out.2.serviceCode = "*123#" ∧ out.2.sessionId = req.sessionId := by
  unfold dispatchStep
  cases st.step
  · exact handleAmountStep_ok store req st
  · exact handleMembersStep_ok store req st
  · exact handleConfirmStep_ok env store req st

/-! ### Store and unfolding lemmas -/

theorem Store.get_set (s : Store) (k : String) (v : USSDState) (k2 : String) :
    (s.set k v).get k2 = if k2 = k then some v else s.get k2 := rfl

theorem Store.get_delete (s : Store) (k k2 : String) :
    (s.delete k).get k2 = if k2 = k then none else s.get k2 := rfl

theorem Store.get_set_self (s : Store) (k : String) (v : USSDState) :
    (s.set k v).get k = some v := by
  simp [Store.get_set]

theorem Store.get_delete_self (s : Store) (k : String) :
    (s.delete k).get k = none := by
  simp [Store.get_delete]

theorem readState_of_get {store : Store} {req : USSDRequest} {st : USSDState}
    (h : store.get req.sessionId = some st) : readState store req = st := by
  unfold readState
  rw [h]
  rfl

theorem readState_of_none {store : Store} {req : USSDRequest}
    (h : store.get req.sessionId = none) : readState store req = initialState req := by
  unfold readState
  rw [h]
  rfl

theorem process_eq (env : BillEnv) (store : Store) (req : USSDRequest) :
    processUSSDRequest env store req =
      catchGeneric req.sessionId store (dispatchStep env store req (readState store req)) := rfl

theorem catchGeneric_ok (sid : String) (store : Store) (out : Store × USSDResponse) :
    catchGeneric sid store (Except.ok out) = out := rfl

theorem dispatchStep_amount (env : BillEnv) (store : Store) (req : USSDRequest)
    {st : USSDState} (h : st.step = .amount) :
    dispatchStep env store req st = handleAmountStep store req st := by
  unfold dispatchStep
  rw [h]

theorem dispatchStep_members (env : BillEnv) (store : Store) (req : USSDRequest)
    {st : USSDState} (h : st.step = .members) :
    dispatchStep env store req st = handleMembersStep store req st := by
  unfold dispatchStep
  rw [h]

theorem dispatchStep_confirm (env : BillEnv) (store : Store) (req : USSDRequest)
    {st : USSDState} (h : st.step = .confirm) :
    dispatchStep env store req st = handleConfirmStep env store req st := by
  unfold dispatchStep
  rw [h]

/-! ### Branch equations for the handlers -/

theorem handleAmountStep_blank (store : Store) (req : USSDRequest) (st : USSDState)
    (hb : jsTrim req.text = "") :
    handleAmountStep store req st =
      .ok (store.set req.sessionId
            { st with creatorName := some (extractNameFromPhone req.phoneNumber),
                      phoneNumber := some req.phoneNumber },
        createResponse req.sessionId
          ("Welcome " ++ jsOrString (some (extractNameFromPhone req.phoneNumber)) "User" ++
            "!\n\nEnter the total bill amount:") .CON) := by
  unfold handleAmountStep
  rw [if_pos hb]

theorem handleAmountStep_invalid (store : Store) (req : USSDRequest) (st : USSDState)
    (hb : jsTrim req.text ≠ "")
    (hbad : ((parseFloat (jsTrim req.text)).isNaN || (parseFloat (jsTrim req.text)).leZero) = true) :
    handleAmountStep store req st =
      .ok (store, createResponse req.sessionId
        "Invalid amount. Please enter a valid number greater than 0:" .CON) := by
  unfold handleAmountStep
  rw [if_neg hb]
  dsimp only
  rw [if_pos hbad]

theorem handleAmountStep_valid (store : Store) (req : USSDRequest) (st : USSDState)
    (hb : jsTrim req.text ≠ "")
    (hgood : ((parseFloat (jsTrim req.text)).isNaN || (parseFloat (jsTrim req.text)).leZero) = false) :
    handleAmountStep store req st =
      .ok (store.set req.sessionId
            { st with amount := some (parseFloat (jsTrim req.text)), step := .members },
        createResponse req.sessionId
          ("Bill amount: " ++ (parseFloat (jsTrim req.text)).toFixed2 ++
            " TZS\n\nEnter phone numbers separated by commas (e.g., 0712345678,0756789012):")
          .CON) := by
  unfold handleAmountStep
  rw [if_neg hb]
  dsimp only
  rw [if_neg (by simp [hgood])]

/-- The member list computed by `handleMembersStep`:
`text.split(',').map(p => p.trim()).filter(isValidPhoneNumber)`. -/
def parsedMembers (text : String) : List String :=
  ((jsSplit ',' text).map jsTrim).filter isValidPhoneNumber

theorem handleMembersStep_blank (store : Store) (req : USSDRequest) (st : USSDState)
    (hb : jsTrim req.text = "") :
    handleMembersStep store req st =
      .ok (store, createResponse req.sessionId
        "Please enter phone numbers separated by commas:" .CON) := by
  unfold handleMembersStep
  rw [if_pos hb]

theorem handleMembersStep_novalid (store : Store) (req : USSDRequest) (st : USSDState)
    (hb : jsTrim req.text ≠ "") (hempty : parsedMembers req.text = []) :
    handleMembersStep store req st =
      .ok (store, createResponse req.sessionId
        "No valid phone numbers found. Please enter valid phone numbers separated by commas:"
        .CON) := by
  unfold handleMembersStep
  rw [if_neg hb]
  dsimp only
  rw [if_pos (by exact hempty)]

theorem handleMembersStep_valid (store : Store) (req : USSDRequest) (st : USSDState)
    (hb : jsTrim req.text ≠ "") (hne : parsedMembers req.text ≠ []) :
    ∃ msg, handleMembersStep store req st =
      .ok (store.set req.sessionId
            { st with memberPhones := parsedMembers req.text, step := .confirm },
        createResponse req.sessionId msg .CON) := by
  unfold handleMembersStep
  rw [if_neg hb]
  dsimp only
  rw [if_neg (by exact hne)]
  exact ⟨_, rfl⟩

theorem handleConfirmStep_created (env : BillEnv) (store : Store) (req : USSDRequest)
    (st : USSDState) (bill : Bill)
    (h1 : req.text = "1") (hbill : env (mkBillRequest st) = .ok bill) :
    handleConfirmStep env store req st =
      .ok (store.delete req.sessionId,
        createResponse req.sessionId (billSuccessMessage bill) .END) := by
  unfold handleConfirmStep
  rw [if_pos h1, hbill]

theorem handleConfirmStep_billfail (env : BillEnv) (store : Store) (req : USSDRequest)
    (st : USSDState) (e : String)
    (h1 : req.text = "1") (hbill : env (mkBillRequest st) = .error e) :
    handleConfirmStep env store req st =
      .ok (store, createResponse req.sessionId
        "❌ Failed to create bill. Please try again later." .END) := by
  unfold handleConfirmStep
  rw [if_pos h1, hbill]

theorem handleConfirmStep_cancel (env : BillEnv) (store : Store) (req : USSDRequest)
    (st : USSDState) (h2 : req.text = "2") :
    handleConfirmStep env store req st =
      .ok (store.delete req.sessionId,
        createResponse req.sessionId
          "❌ Bill creation cancelled. Thank you for using Split-Bill!" .END) := by
  unfold handleConfirmStep
  rw [if_neg (by rw [h2]; decide), if_pos h2]

theorem handleConfirmStep_invalid (env : BillEnv) (store : Store) (req : USSDRequest)
    (st : USSDState) (h1 : req.text ≠ "1") (h2 : req.text ≠ "2") :
    handleConfirmStep env store req st =
      .ok (store, createResponse req.sessionId
        "Invalid option. Please reply with:\n1 - Confirm and Create Bill\n2 - Cancel"
        .CON) := by
  unfold handleConfirmStep
  rw [if_neg h1, if_neg h2]

/-! ### C10 — totality of `processUSSDRequest` -/

/-- C10: for every request, `processUSSDRequest` returns a response and
never propagates an exception: the step dispatcher always yields `ok`
(the one fallible call, `createBill`, is handled inside the confirmation
handler), and the outer catch maps any error that did escape a handler to
the generic `'An error occurred. Please try again.'` `END` response with
the store untouched. -/
theorem C10_total_no_exception :
    ∀ (env : BillEnv) (store : Store) (req : USSDRequest),
      (∃ out, dispatchStep env store req (readState store req) = Except.ok out ∧
        processUSSDRequest env store req = out) ∧
      (∀ e, catchGeneric req.sessionId store (Except.error e) =
        (store, createResponse req.sessionId "An error occurred. Please try again."
          Status.END)) := by
  intro env store req
  refine ⟨?_, fun e => rfl⟩
  obtain ⟨out, hok, -, -⟩ := dispatchStep_ok env store req (readState store req)
  exact ⟨out, hok, by simp only [processUSSDRequest, hok, catchGeneric]⟩

/-! ### C2 — the serviceCode of a response -/

/-- A request whose service code is not the literal the engine answers
with. -/
def reqC2 : USSDRequest :=
  { sessionId := "c2session", serviceCode := "*999#",
    phoneNumber := "0712000111", text := "" }

/-- C2 fails: the response's `serviceCode` is not echoed from the request
— for a request with `serviceCode = "*999#"` the engine answers with
`"*123#"`. -/
theorem C2_counterexample :
    (processUSSDRequest envSucc Store.empty reqC2).2.serviceCode ≠ reqC2.serviceCode := by
  decide

/-- C2 amended: the response's `serviceCode` is the hard-coded constant
`"*123#"` from `createResponse`, independent of the request; it equals
the request's `serviceCode` only when that happens to be `"*123#"`. -/
theorem C2_serviceCode_constant :
    ∀ (env : BillEnv) (store : Store) (req : USSDRequest),
      (processUSSDRequest env store req).2.serviceCode = "*123#" := by
  intro env store req
  obtain ⟨out, hok, hsc, -⟩ := dispatchStep_ok env store req (readState store req)
  simpa only [processUSSDRequest, hok, catchGeneric] using hsc

/-! ### C4 — invalid input at the amount step -/

/-- A session parked at the amount step. -/
def amountStepState : USSDState :=
  { step := .amount, amount := none, memberPhones := [],
    creatorName := some "User", phoneNumber := some "0712000111" }

/-- The request that refutes C4: `parseFloat("Infinity")` is neither
`NaN` nor `<= 0`. -/
def reqC4inf : USSDRequest :=
  { sessionId := "c4inf", serviceCode := "*123#",
    phoneNumber := "0712000111", text := "Infinity" }

/-- C4 fails on inputs parsing to `Infinity`: the guard
`isNaN(amount) || amount <= 0` lets `Infinity` through, so the session
advances to the members step with `amount = Infinity` instead of staying
at the amount step unchanged. -/
theorem C4_counterexample :
    (processUSSDRequest envSucc (Store.set Store.empty "c4inf" amountStepState) reqC4inf).1.get
        "c4inf" =
      some { amountStepState with step := .members, amount := some .inf } ∧
    Step.members ≠ Step.amount := by
  decide

/-- C4 amended: for every non-blank input at the amount step that parses
to `NaN` or to a value `<= 0`, the engine re-prompts with the
invalid-amount message, status `CON`, and the store — in particular the
stored session — is completely unchanged.  Inputs parsing to `Infinity`
are not covered: they pass the guard and advance (see the
counterexample). -/
theorem C4_invalid_amount_stays :
    ∀ (env : BillEnv) (store : Store) (req : USSDRequest),
      (readState store req).step = .amount →
      jsTrim req.text ≠ "" →
      ((parseFloat (jsTrim req.text)).isNaN = true ∨
        (parseFloat (jsTrim req.text)).leZero = true) →
      processUSSDRequest env store req =
        (store, createResponse req.sessionId
          "Invalid amount. Please enter a valid number greater than 0:" Status.CON) := by
  intro env store req hstep hb hbad
  rw [process_eq, dispatchStep_amount env store req hstep,
    handleAmountStep_invalid store req _ hb (by rcases hbad with h | h <;> simp [h]),
    catchGeneric_ok]

/-- A non-numeric amount input for the C4 witness. -/
def reqC4w : USSDRequest :=
  { sessionId := "c4w", serviceCode := "*123#",
    phoneNumber := "0712000111", text := "abc" }

theorem C4_invalid_amount_stays_witness :
    (readState Store.empty reqC4w).step = Step.amount ∧
    jsTrim reqC4w.text ≠ "" ∧
    (parseFloat (jsTrim reqC4w.text)).isNaN = true ∧
    processUSSDRequest envSucc Store.empty reqC4w =
      (Store.empty, createResponse "c4w"
        "Invalid amount. Please enter a valid number greater than 0:" Status.CON) :=
  ⟨by decide, by decide, by decide,
    C4_invalid_amount_stays envSucc Store.empty reqC4w (by decide) (by decide)
      (Or.inl (by decide))⟩

/-! ### C6 — valid input at the amount step -/

/-- C6: an input whose parse is a finite value `q > 0` always advances
the session to the members step, and the stored amount is exactly the
parsed value `JSNum.fin q` — no rounding is applied at this step. -/
theorem C6_valid_amount_advances :
    ∀ (env : BillEnv) (store : Store) (req : USSDRequest) (q : ℚ),
      (readState store req).step = .amount →
      parseFloat (jsTrim req.text) = JSNum.fin q →
      0 < q →
      (processUSSDRequest env store req).1.get req.sessionId =
        some { readState store req with step := .members, amount := some (JSNum.fin q) } ∧
      (processUSSDRequest env store req).2.status = Status.CON := by
  intro env store req q hq hparse hpos
  have hb : jsTrim req.text ≠ "" := by
    intro h
    rw [h] at hparse
    exact JSNum.noConfusion (show JSNum.nan = JSNum.fin q from hparse)
  have hgood : ((parseFloat (jsTrim req.text)).isNaN ||
      (parseFloat (jsTrim req.text)).leZero) = false := by
    rw [hparse]
    simp [JSNum.isNaN, JSNum.leZero, not_le.mpr hpos]
  rw [process_eq, dispatchStep_amount env store req hq,
    handleAmountStep_valid store req _ hb hgood, catchGeneric_ok]
  rw [hparse]
  exact ⟨Store.get_set_self _ _ _, rfl⟩

/-- A decimal amount input for the C6 witness. -/
def reqC6w : USSDRequest :=
  { sessionId := "c6w", serviceCode := "*123#",
    phoneNumber := "0712000111", text := "500.5" }

theorem C6_valid_amount_advances_witness :
    (readState Store.empty reqC6w).step = Step.amount ∧
    parseFloat (jsTrim reqC6w.text) = JSNum.fin (mkRat 1001 2) ∧
    0 < mkRat 1001 2 ∧
    ((processUSSDRequest envSucc Store.empty reqC6w).1.get "c6w" =
        some { readState Store.empty reqC6w with step := .members, amount := some (JSNum.fin (mkRat 1001 2)) } ∧
      (processUSSDRequest envSucc Store.empty reqC6w).2.status = Status.CON) :=
  ⟨by decide, by decide, by decide,
    C6_valid_amount_advances envSucc Store.empty reqC6w (mkRat 1001 2)
      (by decide) (by decide) (by decide)⟩

/-! ### C3 — what the members step stores -/

/-- A session parked at the members step. -/
def membersStepState : USSDState :=
  { step := .members, amount := some (.fin 10000), memberPhones := [],
    creatorName := some "User", phoneNumber := some "0712000111" }

/-- A members-step request entering one valid local-format number. -/
def reqC3 : USSDRequest :=
  { sessionId := "c3s", serviceCode := "*123#",
    phoneNumber := "0712000111", text := "0712345678" }

/-- C3 fails: the members handler stores the validated entries verbatim,
not in normalized form — `"0712345678"` is stored as `"0712345678"`,
while its normalized (international) form is `"+255712345678"`. -/
theorem C3_counterexample :
    (processUSSDRequest envSucc (Store.set Store.empty "c3s" membersStepState) reqC3).1.get
        "c3s" =
      some { membersStepState with step := .confirm, memberPhones := ["0712345678"] } ∧
    formatPhoneNumber "0712345678" = "+255712345678" ∧
    ("0712345678" : String) ≠ "+255712345678" := by
  decide

/-- C3 amended: past the members step, `memberPhones` is the
comma-separated entries trimmed, kept verbatim (no normalization is
applied), in original relative order (a sublist of the trimmed entry
sequence), with exactly the entries failing validation dropped. -/
theorem C3_members_kept_verbatim :
    ∀ (env : BillEnv) (store : Store) (req : USSDRequest),
      (readState store req).step = .members →
      jsTrim req.text ≠ "" →
      parsedMembers req.text ≠ [] →
      (processUSSDRequest env store req).1.get req.sessionId =
        some { readState store req with step := .confirm, memberPhones := parsedMembers req.text } ∧
      (parsedMembers req.text).Sublist ((jsSplit ',' req.text).map jsTrim) ∧
      (∀ p ∈ parsedMembers req.text, isValidPhoneNumber p = true) := by
  intro env store req hstep hb hne
  obtain ⟨msg, hm⟩ := handleMembersStep_valid store req (readState store req) hb hne
  refine ⟨?_, List.filter_sublist _, fun p hp => List.of_mem_filter hp⟩
  rw [process_eq, dispatchStep_members env store req hstep, hm, catchGeneric_ok,
    Store.get_set_self]

/-- The store for the C3 witness. -/
def storeC3 : Store := Store.set Store.empty "c3s" membersStepState

/-- The spec's own member-filtering example input. -/
def reqC3w : USSDRequest :=
  { reqC3 with text := "0712345678, notanumber, 0698765432" }

theorem C3_members_kept_verbatim_witness :
    (readState storeC3 reqC3w).step = Step.members ∧
    jsTrim reqC3w.text ≠ "" ∧
    parsedMembers reqC3w.text ≠ [] ∧
    ((processUSSDRequest envSucc storeC3 reqC3w).1.get reqC3w.sessionId =
        some { readState storeC3 reqC3w with step := .confirm, memberPhones := parsedMembers reqC3w.text } ∧
      (parsedMembers reqC3w.text).Sublist ((jsSplit ',' reqC3w.text).map jsTrim) ∧
      (∀ p ∈ parsedMembers reqC3w.text, isValidPhoneNumber p = true)) :=
  ⟨by decide, by decide, by decide,
    C3_members_kept_verbatim envSucc storeC3 reqC3w (by decide) (by decide) (by decide)⟩

/-! ### C5 — normalizer round-trip on the three formats -/

/-- C5 fails: the three formats do not all pass validation —
`validatePhoneNumber` rejects the bare-country-code form
`"255712345678"` (the regex's optional prefix is `+255` or `0`, never
bare `255`). -/
theorem C5_counterexample :
    ¬(validatePhoneNumber "0712345678" = true ∧
      validatePhoneNumber "+255712345678" = true ∧
      validatePhoneNumber "255712345678" = true) := by
  decide

/-- C5 amended: `formatPhoneNumber` maps all three formats to the one
canonical international form `"+255712345678"`, but only the local and
international forms are accepted by the validators; the bare
country-code form is rejected by both `validatePhoneNumber` and the
engine's `isValidPhoneNumber`. -/
theorem C5_normalize_same_validate_rejects_bare :
    formatPhoneNumber "0712345678" = "+255712345678" ∧
    formatPhoneNumber "+255712345678" = "+255712345678" ∧
    formatPhoneNumber "255712345678" = "+255712345678" ∧
    validatePhoneNumber "0712345678" = true ∧
    validatePhoneNumber "+255712345678" = true ∧
    validatePhoneNumber "255712345678" = false ∧
    isValidPhoneNumber "255712345678" = false := by
  decide

/-! ### C7 — cancellation always deletes the session -/

/-- C7: at the confirmation step, submitting `"2"` deletes the session
and answers `END`, whatever the stored amount and members were; a
following blank turn with the same session id then stores a brand-new
session at the amount step (empty members, no amount). -/
theorem C7_cancel_removes_session :
    ∀ (env : BillEnv) (store : Store) (req : USSDRequest) (st : USSDState),
      store.get req.sessionId = some st →
      st.step = .confirm →
      req.text = "2" →
      (processUSSDRequest env store req).1.get req.sessionId = none ∧
      (processUSSDRequest env store req).2.status = Status.END ∧
      (∀ (env2 : BillEnv) (req2 : USSDRequest), req2.sessionId = req.sessionId →
        jsTrim req2.text = "" →
        (processUSSDRequest env2 (processUSSDRequest env store req).1 req2).1.get req.sessionId =
          some { step := .amount, amount := none, memberPhones := [],
                 creatorName := some (extractNameFromPhone req2.phoneNumber),
                 phoneNumber := some req2.phoneNumber } ∧
        (processUSSDRequest env2 (processUSSDRequest env store req).1 req2).2.status =
          Status.CON) := by
  intro env store req st hlook hstep htext
  have hproc : processUSSDRequest env store req =
      (store.delete req.sessionId,
        createResponse req.sessionId
          "❌ Bill creation cancelled. Thank you for using Split-Bill!" Status.END) := by
    rw [process_eq, readState_of_get hlook, dispatchStep_confirm env store req hstep,
      handleConfirmStep_cancel env store req st htext, catchGeneric_ok]
  refine ⟨?_, ?_, ?_⟩
  · rw [hproc]
    exact Store.get_delete_self store req.sessionId
  · rw [hproc]
    rfl
  · intro env2 req2 hsid hblank
    rw [hproc]
    have hnone : (store.delete req.sessionId).get req2.sessionId = none := by
      rw [hsid]
      exact Store.get_delete_self store req.sessionId
    rw [process_eq, readState_of_none hnone, dispatchStep_amount env2 _ req2 rfl,
      handleAmountStep_blank _ req2 _ hblank, catchGeneric_ok]
    refine ⟨?_, rfl⟩
    rw [← hsid, Store.get_set_self]
    rfl

/-- A cancellation request for the C7 witness. -/
def reqC7 : USSDRequest :=
  { sessionId := "c7s", serviceCode := "*123#",
    phoneNumber := "0712000111", text := "2" }

/-- The store for the C7 witness: one session at confirmation. -/
def storeC7 : Store := Store.set Store.empty "c7s" confirmState

/-- The following blank turn reusing the same session id. -/
def reqC7b : USSDRequest := { reqC7 with text := "" }

theorem C7_cancel_removes_session_witness :
    storeC7.get "c7s" = some confirmState ∧
    confirmState.step = Step.confirm ∧
    reqC7.text = "2" ∧
    (processUSSDRequest envSucc storeC7 reqC7).1.get "c7s" = none ∧
    (processUSSDRequest envSucc storeC7 reqC7).2.status = Status.END ∧
    (processUSSDRequest envSucc (processUSSDRequest envSucc storeC7 reqC7).1 reqC7b).1.get "c7s" =
      some { step := Step.amount, amount := none, memberPhones := [],
             creatorName := some (extractNameFromPhone reqC7b.phoneNumber),
             phoneNumber := some reqC7b.phoneNumber } ∧
    (processUSSDRequest envSucc (processUSSDRequest envSucc storeC7 reqC7).1 reqC7b).2.status =
      Status.CON := by
  obtain ⟨h1, h2, h3⟩ :=
    C7_cancel_removes_session envSucc storeC7 reqC7 confirmState (by decide) (by decide)
      (by decide)
  obtain ⟨h4, h5⟩ := h3 envSucc reqC7b (by decide) (by decide)
  exact ⟨by decide, by decide, by decide, h1, h2, h4, h5⟩

/-! ### C1 — END and session deletion -/

/-- The store for the C1 counterexample and witness: one session at
confirmation. -/
def storeC1 : Store := Store.set Store.empty "c1s" confirmState

/-- The confirmation request for C1. -/
def reqC1 : USSDRequest :=
  { sessionId := "c1s", serviceCode := "*123#",
    phoneNumber := "+255700000001", text := "1" }

/-- C1 fails on the bill-failure path: when `createBill` throws, the
engine answers `END` but the session is still in the store afterwards
(the `sessionStore.delete` only runs on the success path). -/
theorem C1_counterexample :
    (processUSSDRequest envFail storeC1 reqC1).2.status = Status.END ∧
    (processUSSDRequest envFail storeC1 reqC1).1.get "c1s" = some confirmState := by
  decide

/-- C1 amended: every `END` response leaves no session for the id —
except on the confirmation path when the Bill Store call fails, where
the engine answers `END` with the failure message and the store (hence
the session) is left unchanged. -/
theorem C1_end_implies_deleted_except_billfail :
    ∀ (env : BillEnv) (store : Store) (req : USSDRequest),
      (processUSSDRequest env store req).2.status = Status.END →
      (processUSSDRequest env store req).1.get req.sessionId = none ∨
      (∃ st e, store.get req.sessionId = some st ∧ st.step = .confirm ∧ req.text = "1" ∧
        env (mkBillRequest st) = Except.error e ∧
        (processUSSDRequest env store req).1 = store ∧
        (processUSSDRequest env store req).2.message =
          "❌ Failed to create bill. Please try again later.") := by
  intro env store req hEnd
  cases hget : store.get req.sessionId with
  | none =>
    exfalso
    have hrs := readState_of_none hget
    by_cases hb : jsTrim req.text = ""
    · rw [process_eq, hrs, dispatchStep_amount env store req rfl,
        handleAmountStep_blank store req _ hb, catchGeneric_ok] at hEnd
      simp [createResponse] at hEnd
    · by_cases hv : ((parseFloat (jsTrim req.text)).isNaN ||
          (parseFloat (jsTrim req.text)).leZero) = true
      · rw [process_eq, hrs, dispatchStep_amount env store req rfl,
          handleAmountStep_invalid store req _ hb hv, catchGeneric_ok] at hEnd
        simp [createResponse] at hEnd
      · rw [process_eq, hrs, dispatchStep_amount env store req rfl,
          handleAmountStep_valid store req _ hb (by simpa using hv), catchGeneric_ok] at hEnd
        simp [createResponse] at hEnd
  | some st0 =>
    have hrs := readState_of_get hget
    cases hstep : st0.step with
    | amount =>
      exfalso
      by_cases hb : jsTrim req.text = ""
      · rw [process_eq, hrs, dispatchStep_amount env store req hstep,
          handleAmountStep_blank store req _ hb, catchGeneric_ok] at hEnd
        simp [createResponse] at hEnd
      · by_cases hv : ((parseFloat (jsTrim req.text)).isNaN ||
            (parseFloat (jsTrim req.text)).leZero) = true
        · rw [process_eq, hrs, dispatchStep_amount env store req hstep,
            handleAmountStep_invalid store req _ hb hv, catchGeneric_ok] at hEnd
          simp [createResponse] at hEnd
        · rw [process_eq, hrs, dispatchStep_amount env store req hstep,
            handleAmountStep_valid store req _ hb (by simpa using hv), catchGeneric_ok] at hEnd
          simp [createResponse] at hEnd
    | members =>
      exfalso
      by_cases hb : jsTrim req.text = ""
      · rw [process_eq, hrs, dispatchStep_members env store req hstep,
          handleMembersStep_blank store req _ hb, catchGeneric_ok] at hEnd
        simp [createResponse] at hEnd
      · by_cases hv : parsedMembers req.text = []
        · rw [process_eq, hrs, dispatchStep_members env store req hstep,
            handleMembersStep_novalid store req _ hb hv, catchGeneric_ok] at hEnd
          simp [createResponse] at hEnd
        · obtain ⟨msg, hm⟩ := handleMembersStep_valid store req st0 hb hv
          rw [process_eq, hrs, dispatchStep_members env store req hstep, hm,
            catchGeneric_ok] at hEnd
          simp [createResponse] at hEnd
    | confirm =>
      by_cases h1 : req.text = "1"
      · cases hbill : env (mkBillRequest st0) with
        | ok bill =>
          left
          rw [process_eq, hrs, dispatchStep_confirm env store req hstep,
            handleConfirmStep_created env store req st0 bill h1 hbill, catchGeneric_ok]
          exact Store.get_delete_self store req.sessionId
        | error e =>
          right
          have hproc2 : processUSSDRequest env store req =
              (store, createResponse req.sessionId
                "❌ Failed to create bill. Please try again later." Status.END) := by
            rw [process_eq, hrs, dispatchStep_confirm env store req hstep,
              handleConfirmStep_billfail env store req st0 e h1 hbill, catchGeneric_ok]
          refine ⟨st0, e, rfl, hstep, h1, hbill, ?_, ?_⟩
          · rw [hproc2]
          · rw [hproc2]
            rfl
      · by_cases h2 : req.text = "2"
        · left
          rw [process_eq, hrs, dispatchStep_confirm env store req hstep,
            handleConfirmStep_cancel env store req st0 h2, catchGeneric_ok]
          exact Store.get_delete_self store req.sessionId
        · exfalso
          rw [process_eq, hrs, dispatchStep_confirm env store req hstep,
            handleConfirmStep_invalid env store req st0 h1 h2, catchGeneric_ok] at hEnd
          simp [createResponse] at hEnd

theorem C1_end_implies_deleted_except_billfail_witness :
    (processUSSDRequest envFail storeC1 reqC1).2.status = Status.END ∧
    ((processUSSDRequest envFail storeC1 reqC1).1.get reqC1.sessionId = none ∨
      (∃ st e, storeC1.get reqC1.sessionId = some st ∧ st.step = .confirm ∧
        reqC1.text = "1" ∧ envFail (mkBillRequest st) = Except.error e ∧
        (processUSSDRequest envFail storeC1 reqC1).1 = storeC1 ∧
        (processUSSDRequest envFail storeC1 reqC1).2.message =
          "❌ Failed to create bill. Please try again later.")) :=
  ⟨by decide, C1_end_implies_deleted_except_billfail envFail storeC1 reqC1 (by decide)⟩

/-! ### C8 — steps only advance -/

/-- C8: one engine transition never moves a stored session's step
backwards along `amount → members → confirm`, and from the confirmation
step the only way out of the store is a terminal (`END`) response. -/
theorem C8_step_only_advances :
    ∀ (env : BillEnv) (store : Store) (req : USSDRequest) (st : USSDState),
      store.get req.sessionId = some st →
      (∀ st', (processUSSDRequest env store req).1.get req.sessionId = some st' →
        stepIdx st.step ≤ stepIdx st'.step) ∧
      (st.step = .confirm →
        (∀ st', (processUSSDRequest env store req).1.get req.sessionId = some st' →
          st'.step = .confirm) ∧
        ((processUSSDRequest env store req).1.get req.sessionId = none →
          (processUSSDRequest env store req).2.status = Status.END)) := by
  intro env store req st hget
  have hrs := readState_of_get hget
  cases hstep : st.step with
  | amount =>
    refine ⟨?_, fun hconf => Step.noConfusion hconf⟩
    intro st' hst'
    by_cases hb : jsTrim req.text = ""
    · rw [process_eq, hrs, dispatchStep_amount env store req hstep,
        handleAmountStep_blank store req _ hb, catchGeneric_ok,
        Store.get_set_self, Option.some_inj] at hst'
      subst hst'
      rw [hstep]
    · by_cases hv : ((parseFloat (jsTrim req.text)).isNaN ||
          (parseFloat (jsTrim req.text)).leZero) = true
      · rw [process_eq, hrs, dispatchStep_amount env store req hstep,
          handleAmountStep_invalid store req _ hb hv, catchGeneric_ok, hget,
          Option.some_inj] at hst'
        subst hst'
        rw [hstep]
      · rw [process_eq, hrs, dispatchStep_amount env store req hstep,
          handleAmountStep_valid store req _ hb (by simpa using hv), catchGeneric_ok,
          Store.get_set_self, Option.some_inj] at hst'
        subst hst'
        simp [stepIdx]
  | members =>
    refine ⟨?_, fun hconf => Step.noConfusion hconf⟩
    intro st' hst'
    by_cases hb : jsTrim req.text = ""
    · rw [process_eq, hrs, dispatchStep_members env store req hstep,
        handleMembersStep_blank store req _ hb, catchGeneric_ok, hget,
        Option.some_inj] at hst'
      subst hst'
      rw [hstep]
    · by_cases hv : parsedMembers req.text = []
      · rw [process_eq, hrs, dispatchStep_members env store req hstep,
          handleMembersStep_novalid store req _ hb hv, catchGeneric_ok, hget,
          Option.some_inj] at hst'
        subst hst'
        rw [hstep]
      · obtain ⟨msg, hm⟩ := handleMembersStep_valid store req st hb hv
        rw [process_eq, hrs, dispatchStep_members env store req hstep, hm,
          catchGeneric_ok, Store.get_set_self, Option.some_inj] at hst'
        subst hst'
        simp [stepIdx]
  | confirm =>
    by_cases h1 : req.text = "1"
    · cases hbill : env (mkBillRequest st) with
      | ok bill =>
        have hproc : processUSSDRequest env store req =
            (store.delete req.sessionId,
              createResponse req.sessionId (billSuccessMessage bill) Status.END) := by
          rw [process_eq, hrs, dispatchStep_confirm env store req hstep,
            handleConfirmStep_created env store req st bill h1 hbill, catchGeneric_ok]
        refine ⟨?_, fun _ => ⟨?_, fun _ => ?_⟩⟩
        · intro st' hst'
          rw [hproc, Store.get_delete_self] at hst'
          exact Option.noConfusion hst'
        · intro st' hst'
          rw [hproc, Store.get_delete_self] at hst'
          exact Option.noConfusion hst'
        · rw [hproc]
          rfl
      | error e =>
        have hproc : processUSSDRequest env store req =
            (store, createResponse req.sessionId
              "❌ Failed to create bill. Please try again later." Status.END) := by
          rw [process_eq, hrs, dispatchStep_confirm env store req hstep,
            handleConfirmStep_billfail env store req st e h1 hbill, catchGeneric_ok]
        refine ⟨?_, fun _ => ⟨?_, fun hnone => ?_⟩⟩
        · intro st' hst'
          rw [hproc, hget, Option.some_inj] at hst'
          subst hst'
          rw [hstep]
        · intro st' hst'
          rw [hproc, hget, Option.some_inj] at hst'
          subst hst'
          exact hstep
        · rw [hproc]
          rfl
    · by_cases h2 : req.text = "2"
      · have hproc : processUSSDRequest env store req =
            (store.delete req.sessionId,
              createResponse req.sessionId
                "❌ Bill creation cancelled. Thank you for using Split-Bill!" Status.END) := by
          rw [process_eq, hrs, dispatchStep_confirm env store req hstep,
            handleConfirmStep_cancel env store req st h2, catchGeneric_ok]
        refine ⟨?_, fun _ => ⟨?_, fun _ => ?_⟩⟩
        · intro st' hst'
          rw [hproc, Store.get_delete_self] at hst'
          exact Option.noConfusion hst'
        · intro st' hst'
          rw [hproc, Store.get_delete_self] at hst'
          exact Option.noConfusion hst'
        · rw [hproc]
          rfl
      · have hproc : processUSSDRequest env store req =
            (store, createResponse req.sessionId
              "Invalid option. Please reply with:\n1 - Confirm and Create Bill\n2 - Cancel"
              Status.CON) := by
          rw [process_eq, hrs, dispatchStep_confirm env store req hstep,
            handleConfirmStep_invalid env store req st h1 h2, catchGeneric_ok]
        refine ⟨?_, fun _ => ⟨?_, fun hnone => ?_⟩⟩
        · intro st' hst'
          rw [hproc, hget, Option.some_inj] at hst'
          subst hst'
          rw [hstep]
        · intro st' hst'
          rw [hproc, hget, Option.some_inj] at hst'
          subst hst'
          exact hstep
        · rw [hproc, hget] at hnone
          exact Option.noConfusion hnone

/-- An unrecognized confirmation input for the C8 witness. -/
def reqC8 : USSDRequest :=
  { sessionId := "c8s", serviceCode := "*123#",
    phoneNumber := "0712000111", text := "9" }

/-- The store for the C8 witness: one session at confirmation. -/
def storeC8 : Store := Store.set Store.empty "c8s" confirmState

theorem C8_step_only_advances_witness :
    storeC8.get reqC8.sessionId = some confirmState ∧
    ((∀ st', (processUSSDRequest envSucc storeC8 reqC8).1.get reqC8.sessionId = some st' →
        stepIdx confirmState.step ≤ stepIdx st'.step) ∧
      (confirmState.step = .confirm →
        (∀ st', (processUSSDRequest envSucc storeC8 reqC8).1.get reqC8.sessionId = some st' →
          st'.step = .confirm) ∧
        ((processUSSDRequest envSucc storeC8 reqC8).1.get reqC8.sessionId = none →
          (processUSSDRequest envSucc storeC8 reqC8).2.status = Status.END))) :=
  ⟨by decide, C8_step_only_advances envSucc storeC8 reqC8 confirmState (by decide)⟩

/-! ### C9 — well-formedness of stored sessions -/

/-- The store invariant behind C9: every stored session has a defined
`phoneNumber`, and past the amount step also a defined amount that is
`> 0` in the JS sense. -/
def StoreInv (store : Store) : Prop :=
  ∀ sid st, store.get sid = some st →
    st.phoneNumber ≠ none ∧
    (st.step ≠ .amount → ∃ a, st.amount = some a ∧ a.gtZero = true)

/-- The per-session facts `StoreInv` demands. -/
def GoodState (st : USSDState) : Prop :=
  st.phoneNumber ≠ none ∧
  (st.step ≠ .amount → ∃ a, st.amount = some a ∧ a.gtZero = true)

theorem storeInv_empty : StoreInv Store.empty := by
  intro sid st h
  exact Option.noConfusion h

theorem storeInv_set {store : Store} (hInv : StoreInv store) {sid : String}
    {v : USSDState} (hv : GoodState v) : StoreInv (store.set sid v) := by
  intro sid2 st2 h2
  rw [Store.get_set] at h2
  split at h2
  · cases h2
    exact hv
  · exact hInv sid2 st2 h2

theorem storeInv_delete {store : Store} (hInv : StoreInv store) (sid : String) :
    StoreInv (store.delete sid) := by
  intro sid2 st2 h2
  rw [Store.get_delete] at h2
  split at h2
  · exact Option.noConfusion h2
  · exact hInv sid2 st2 h2

/-- A value passing the amount guard `!(isNaN(x) || x <= 0)` is `> 0` in
the JS sense. -/
theorem gtZero_of_guard {n : JSNum} (h : (n.isNaN || n.leZero) = false) :
    n.gtZero = true := by
  cases n <;> simp [JSNum.isNaN, JSNum.leZero, JSNum.gtZero] at h ⊢
  exact h

/-- The state the engine reads always has a defined `phoneNumber` when
the store satisfies the invariant (a fresh state carries the caller's
number). -/
theorem readState_phone {store : Store} (hInv : StoreInv store) (req : USSDRequest) :
    (readState store req).phoneNumber ≠ none := by
  cases hget : store.get req.sessionId with
  | none =>
    rw [readState_of_none hget]
    simp [initialState]
  | some st0 =>
    rw [readState_of_get hget]
    exact (hInv _ _ hget).1

/-- One engine transition preserves the store invariant. -/
theorem storeInv_preserved (env : BillEnv) (store : Store) (req : USSDRequest)
    (hInv : StoreInv store) : StoreInv (processUSSDRequest env store req).1 := by
  have hphone := readState_phone hInv req
  cases hstep : (readState store req).step with
  | amount =>
    by_cases hb : jsTrim req.text = ""
    · rw [process_eq, dispatchStep_amount env store req hstep,
        handleAmountStep_blank store req _ hb, catchGeneric_ok]
      refine storeInv_set hInv ⟨by simp, fun habs => absurd hstep (by simpa using habs)⟩
    · by_cases hv : ((parseFloat (jsTrim req.text)).isNaN ||
          (parseFloat (jsTrim req.text)).leZero) = true
      · rw [process_eq, dispatchStep_amount env store req hstep,
          handleAmountStep_invalid store req _ hb hv, catchGeneric_ok]
        exact hInv
      · rw [process_eq, dispatchStep_amount env store req hstep,
          handleAmountStep_valid store req _ hb (by simpa using hv), catchGeneric_ok]
        exact storeInv_set hInv
          ⟨hphone, fun _ => ⟨_, rfl, gtZero_of_guard (by simpa using hv)⟩⟩
  | members =>
    -- a session read at the members step must be stored (fresh ones are
    -- at the amount step), so the invariant gives it a positive amount
    have hgood : ∃ a, (readState store req).amount = some a ∧ a.gtZero = true := by
      cases hget : store.get req.sessionId with
      | none =>
        rw [readState_of_none hget] at hstep
        exact Step.noConfusion hstep
      | some st0 =>
        rw [readState_of_get hget] at hstep ⊢
        exact (hInv _ _ hget).2 (by rw [hstep]; decide)
    by_cases hb : jsTrim req.text = ""
    · rw [process_eq, dispatchStep_members env store req hstep,
        handleMembersStep_blank store req _ hb, catchGeneric_ok]
      exact hInv
    · by_cases hv : parsedMembers req.text = []
      · rw [process_eq, dispatchStep_members env store req hstep,
          handleMembersStep_novalid store req _ hb hv, catchGeneric_ok]
        exact hInv
      · obtain ⟨msg, hm⟩ := handleMembersStep_valid store req (readState store req) hb hv
        rw [process_eq, dispatchStep_members env store req hstep, hm, catchGeneric_ok]
        exact storeInv_set hInv ⟨hphone, fun _ => hgood⟩
  | confirm =>
    by_cases h1 : req.text = "1"
    · cases hbill : env (mkBillRequest (readState store req)) with
      | ok bill =>
        rw [process_eq, dispatchStep_confirm env store req hstep,
          handleConfirmStep_created env store req _ bill h1 hbill, catchGeneric_ok]
        exact storeInv_delete hInv req.sessionId
      | error e =>
        rw [process_eq, dispatchStep_confirm env store req hstep,
          handleConfirmStep_billfail env store req _ e h1 hbill, catchGeneric_ok]
        exact hInv
    · by_cases h2 : req.text = "2"
      · rw [process_eq, dispatchStep_confirm env store req hstep,
          handleConfirmStep_cancel env store req _ h2, catchGeneric_ok]
        exact storeInv_delete hInv req.sessionId
      · rw [process_eq, dispatchStep_confirm env store req hstep,
          handleConfirmStep_invalid env store req _ h1 h2, catchGeneric_ok]
        exact hInv

/-- The invariant holds after any request sequence from an
invariant-satisfying store. -/
theorem storeInv_run (env : BillEnv) (reqs : List USSDRequest) :
    ∀ store : Store, StoreInv store → StoreInv (runRequests env reqs store) := by
  induction reqs with
  | nil => exact fun store h => h
  | cons r rs ih =>
    intro store h
    exact ih (processUSSDRequest env store r).1 (storeInv_preserved env store r h)

/-- C9: in any store reachable by the engine from the empty store, a
session at the members or confirmation step has a defined amount that is
`> 0` and a defined `phoneNumber` — so the non-null assertions
`state.amount!` and `state.phoneNumber!` in the members and confirmation
handlers never see `undefined`. -/
theorem C9_reachable_sessions_wellformed :
    ∀ (env : BillEnv) (reqs : List USSDRequest) (sid : String) (st : USSDState),
      (runRequests env reqs Store.empty).get sid = some st →
      st.step = .members ∨ st.step = .confirm →
      (∃ a, st.amount = some a ∧ a.gtZero = true) ∧ st.phoneNumber ≠ none := by
  intro env reqs sid st hget hsteps
  obtain ⟨hphone, hamount⟩ := storeInv_run env reqs Store.empty storeInv_empty sid st hget
  refine ⟨hamount ?_, hphone⟩
  rcases hsteps with h | h <;> rw [h] <;> decide

/-- An amount entry creating a members-step session for the C9 witness. -/
def reqC9 : USSDRequest :=
  { sessionId := "c9s", serviceCode := "*123#",
    phoneNumber := "0712000111", text := "500" }

/-- The session stored after `reqC9` hits the empty store. -/
def stC9 : USSDState :=
  { step := .members, amount := some (.fin 500), memberPhones := [],
    creatorName := none, phoneNumber := some "0712000111" }

theorem C9_reachable_sessions_wellformed_witness :
    (runRequests envSucc [reqC9] Store.empty).get "c9s" = some stC9 ∧
    (stC9.step = Step.members ∨ stC9.step = Step.confirm) ∧
    ((∃ a, stC9.amount = some a ∧ a.gtZero = true) ∧ stC9.phoneNumber ≠ none) :=
  ⟨by decide, Or.inl (by decide),
    C9_reachable_sessions_wellformed envSucc [reqC9] "c9s" stC9 (by decide)
      (Or.inl (by decide))⟩

end SplitBill
